import Mathlib

/-!
Shallow embedding of the DTLS code paths of `dtls/patch.py` (the patched
`ssl.SSLSocket` initializer and the substituted methods `listen`, `accept`,
`_real_connect`, `get_timeout`, `handle_timeout`).

The Secure Session (`SSLConnection` from `sslconnection.py`) is an external
collaborator: it is modelled as a record of its constructor arguments, and its
network-facing behaviour (`connect`, `accept`, `getpeername` probing,
`get_timeout`, `handle_timeout`) is supplied to each operation as an explicit
oracle argument, so the adapter logic itself stays a pure function of its
inputs.  File paths, certificate blobs, addresses and cipher strings are
abstracted to natural numbers; `None` becomes `Option.none`.
-/

namespace DtlsPatch

/-- Linux value of errno.ENOTCONN, the errno compared against at patch.py:139. -/
def ENOTCONN : Int := 107

/-- socket.SOCK_STREAM. -/
def SOCK_STREAM : Nat := 1

/-- socket.SOCK_DGRAM. -/
def SOCK_DGRAM : Nat := 2

/-- socket.AF_INET. -/
def AF_INET : Nat := 2

/-- Untyped Python value: used for the parameters of the patched initializer
(`family`, `type`, `proto`, `fileno`, `_context`) that the DTLS code paths
never read but that take part in positional argument binding. -/
inductive PyVal
  | vbool (b : Bool)
  | vnat (n : Nat)
  | voptNat (o : Option Nat)
  | vnone
deriving DecidableEq

/-- The Python exceptions the embedded code can raise. -/
inductive PyError
  | valueError (msg : String)
  | socketError (errno : Int)
  | attributeError (msg : String)
deriving DecidableEq

/-- A Secure Session (`SSLConnection`): modelled as the record of the ten
positional constructor arguments of `SSLConnection(sock, keyfile, certfile,
server_side, cert_reqs, ssl_version, ca_certs, do_handshake_on_connect,
suppress_ragged_eofs, ciphers)` as used at patch.py:147, :182 and :208,
with the wrapped socket abstracted to its raw handle. -/
structure SSLConnection where
  handle : Nat
  keyfile : Option Nat
  certfile : Option Nat
  server_side : Bool
  cert_reqs : Nat
  ssl_version : Nat
  ca_certs : Option Nat
  do_handshake_on_connect : Bool
  suppress_ragged_eofs : Bool
  ciphers : Option Nat
deriving DecidableEq

/-- The adapter instance (the patched `SSLSocket` after a DTLS-path
`__init__`): the `_connected` / `_sslobj` state plus the configuration
attributes copied at patch.py:160-167, and the raw handle (`self._sock`).
The `_context` FakeContext, `_makefile_refs` counter and the bound-method
substitution of patch.py:156-175 carry no claim-relevant state and are not
modelled. -/
structure Endpoint where
  _connected : Bool
  _sslobj : Option SSLConnection
  keyfile : Option Nat
  certfile : Option Nat
  cert_reqs : Nat
  ssl_version : Nat
  ca_certs : Option Nat
  ciphers : Option Nat
  do_handshake_on_connect : Bool
  suppress_ragged_eofs : Bool
  handle : Nat
deriving DecidableEq

/-- The `sock` argument of the patched initializer: either an `SSLConnection`
(`isinstance(sock, SSLConnection)` at patch.py:101) or an ordinary socket with
a raw handle and a transport `type` attribute (patch.py:103). -/
inductive Sock
  | conn (c : SSLConnection)
  | raw (handle : Nat) (type : Nat)
deriving DecidableEq

/-- Outcome of the `socket.getpeername(self)` connectedness probe at
patch.py:137, supplied by the environment. -/
inductive ProbeResult
  | ok (peer : Nat)
  | err (errno : Int)
deriving DecidableEq

/-- Outcome of the Secure Session handshake initiation
`self._sslobj.connect(addr)` at patch.py:215, supplied by the environment. -/
inductive ConnectOutcome
  | ok
  | sockErr (errno : Int)
deriving DecidableEq

/-- Result of the patched initializer: delegation to the unmodified
stream-socket initializer (patch.py:107), a constructed DTLS endpoint, or a
propagated exception (the re-raise at patch.py:140). -/
inductive InitResult
  | passthrough
  | endpoint (ep : Endpoint)
  | fault (e : PyError)
deriving DecidableEq

/-- `_SSLSocket_init` (patch.py:92-175), DTLS decision and state only.  The
parameters are the exact positional parameter list of the source (after
`self`), with `npn_protocols` and `server_hostname` as unread `Option Nat`
and the never-read `family`/`type`/`proto`/`fileno`/`_context` as `PyVal`;
`probe` is the environment oracle for the `getpeername` call of the datagram
branch.  Matching on `sock` realises the `is_connection` / `is_datagram` /
passthrough trichotomy of patch.py:100-105. -/
def _SSLSocket_init (sock : Sock) (keyfile : Option Nat) (certfile : Option Nat)
    (server_side : Bool) (cert_reqs : Nat) (ssl_version : Nat)
    (ca_certs : Option Nat) (do_handshake_on_connect : Bool)
    (family : PyVal) (type : PyVal) (proto : PyVal) (fileno : PyVal)
    (suppress_ragged_eofs : Bool) (npn_protocols : Option Nat)
    (ciphers : Option Nat) (server_hostname : Option Nat) (_context : PyVal)
    (probe : ProbeResult) : InitResult :=
  -- patch.py:132-133: if certfile and not keyfile: keyfile = certfile
  let keyfile := if certfile.isSome && keyfile.isNone then certfile else keyfile
  match sock with
  | Sock.raw h ty =>
    if ty = SOCK_DGRAM then
      -- datagram branch, patch.py:134-151: probe connectedness via getpeername
      match probe with
      | ProbeResult.err e =>
        if e ≠ ENOTCONN then
          -- patch.py:139-140: any errno other than ENOTCONN is re-raised
          InitResult.fault (PyError.socketError e)
        else
          -- patch.py:141-143: not connected yet
          InitResult.endpoint
            { _connected := false, _sslobj := Option.none,
              keyfile := keyfile, certfile := certfile,
              cert_reqs := cert_reqs, ssl_version := ssl_version,
              ca_certs := ca_certs, ciphers := ciphers,
              do_handshake_on_connect := do_handshake_on_connect,
              suppress_ragged_eofs := suppress_ragged_eofs, handle := h }
      | ProbeResult.ok _ =>
        -- patch.py:144-151: connected, create the SSL object
        InitResult.endpoint
          { _connected := true,
            _sslobj := Option.some
              { handle := h, keyfile := keyfile, certfile := certfile,
                server_side := server_side, cert_reqs := cert_reqs,
                ssl_version := ssl_version, ca_certs := ca_certs,
                do_handshake_on_connect := do_handshake_on_connect,
                suppress_ragged_eofs := suppress_ragged_eofs,
                ciphers := ciphers },
            keyfile := keyfile, certfile := certfile,
            cert_reqs := cert_reqs, ssl_version := ssl_version,
            ca_certs := ca_certs, ciphers := ciphers,
            do_handshake_on_connect := do_handshake_on_connect,
            suppress_ragged_eofs := suppress_ragged_eofs, handle := h }
    else
      -- patch.py:105-119: neither connection nor datagram: non-DTLS code path
      InitResult.passthrough
  | Sock.conn c =>
    -- patch.py:152-154: newly accepted DTLS connection
    InitResult.endpoint
      { _connected := true, _sslobj := Option.some c,
        keyfile := keyfile, certfile := certfile,
        cert_reqs := cert_reqs, ssl_version := ssl_version,
        ca_certs := ca_certs, ciphers := ciphers,
        do_handshake_on_connect := do_handshake_on_connect,
        suppress_ragged_eofs := suppress_ragged_eofs, handle := c.handle }

/-- The role the classifier of patch.py:100-105 assigns to a `sock` input. -/
inductive Role
  | Passthrough
  | DatagramProbing
  | DemultiplexedDatagram
deriving DecidableEq

/-- The classification decision of patch.py:100-105 in isolation:
`isinstance(sock, SSLConnection)` first, else the `sock.type == SOCK_DGRAM`
test, else the non-DTLS path. -/
def classify (sock : Sock) : Role :=
  match sock with
  | Sock.conn _ => Role.DemultiplexedDatagram
  | Sock.raw _ ty =>
    if ty = SOCK_DGRAM then Role.DatagramProbing else Role.Passthrough

/-- Calling the patched initializer on a raw datagram handle with every
defaulted parameter left at its default (`family=AF_INET, type=SOCK_STREAM,
proto=0, fileno=None, npn_protocols=None, server_hostname=None,
_context=None`), as a keyword-style caller of `ssl.SSLSocket` would. -/
def initDatagram (h : Nat) (keyfile : Option Nat) (certfile : Option Nat)
    (server_side : Bool) (cert_reqs : Nat) (ssl_version : Nat)
    (ca_certs : Option Nat) (do_handshake_on_connect : Bool)
    (suppress_ragged_eofs : Bool) (ciphers : Option Nat)
    (probe : ProbeResult) : InitResult :=
  _SSLSocket_init (Sock.raw h SOCK_DGRAM) keyfile certfile server_side
    cert_reqs ssl_version ca_certs do_handshake_on_connect
    (PyVal.vnat AF_INET) (PyVal.vnat SOCK_STREAM) (PyVal.vnat 0) PyVal.vnone
    suppress_ragged_eofs Option.none ciphers Option.none PyVal.vnone probe

/-- The server-role session `listen` builds at patch.py:182-187:
`SSLConnection(socket(_sock=self._sock), self.keyfile, self.certfile, True,
self.cert_reqs, self.ssl_version, self.ca_certs,
self.do_handshake_on_connect, self.suppress_ragged_eofs, self.ciphers)`. -/
def serverSession (self : Endpoint) : SSLConnection :=
  { handle := self.handle, keyfile := self.keyfile, certfile := self.certfile,
    server_side := true, cert_reqs := self.cert_reqs,
    ssl_version := self.ssl_version, ca_certs := self.ca_certs,
    do_handshake_on_connect := self.do_handshake_on_connect,
    suppress_ragged_eofs := self.suppress_ragged_eofs,
    ciphers := self.ciphers }

/-- The client-role session `_real_connect` builds at patch.py:208-213: the
same argument list as `serverSession` but with `server_side = False`. -/
def clientSession (self : Endpoint) : SSLConnection :=
  { handle := self.handle, keyfile := self.keyfile, certfile := self.certfile,
    server_side := false, cert_reqs := self.cert_reqs,
    ssl_version := self.ssl_version, ca_certs := self.ca_certs,
    do_handshake_on_connect := self.do_handshake_on_connect,
    suppress_ragged_eofs := self.suppress_ragged_eofs,
    ciphers := self.ciphers }

/-- `_SSLSocket_listen` (patch.py:177-187).  Returns the post-state together
with the Python result (`()` for the bare `return`) or the raised exception.
The source's unused backlog parameter is kept as `ignored`. -/
def _SSLSocket_listen (self : Endpoint) (ignored : Nat) :
    Endpoint × Except PyError Unit :=
  if self._connected then
    (self, Except.error
      (PyError.valueError "attempt to listen on connected SSLSocket!"))
  else if self._sslobj.isSome then
    -- patch.py:180-181: if self._sslobj: return
    (self, Except.ok ())
  else
    ({ self with _sslobj := Option.some (serverSession self) }, Except.ok ())

/-- `_SSLSocket_accept` (patch.py:189-203).  `acc_ret` is the environment
oracle for `self._sslobj.accept()`: `None` or a pair of a newly associated
Secure Session and the peer address.  On a ready association the source calls
`ssl.SSLSocket(new_conn, self.keyfile, self.certfile, True, self.cert_reqs,
self.ssl_version, self.ca_certs, self.do_handshake_on_connect,
self.suppress_ragged_eofs, self.ciphers)` with ten POSITIONAL arguments, so
`self.suppress_ragged_eofs` binds to the initializer parameter `family` and
`self.ciphers` binds to `type`, while the parameters `suppress_ragged_eofs`
and `ciphers` of the new socket take their defaults `True` and `None`; the
embedding reproduces that positional binding exactly. -/
def _SSLSocket_accept (self : Endpoint)
    (acc_ret : Option (SSLConnection × Nat)) :
    Endpoint × Except PyError (Option (Endpoint × Nat)) :=
  if self._connected then
    (self, Except.error
      (PyError.valueError "attempt to accept on connected SSLSocket!"))
  else if self._sslobj.isNone then
    (self, Except.error
      (PyError.valueError "attempt to accept on SSLSocket prior to listen!"))
  else
    match acc_ret with
    | Option.none => (self, Except.ok Option.none)
    | Option.some (new_conn, addr) =>
      match _SSLSocket_init (Sock.conn new_conn) self.keyfile self.certfile
          true self.cert_reqs self.ssl_version self.ca_certs
          self.do_handshake_on_connect
          (PyVal.vbool self.suppress_ragged_eofs)  -- binds to family
          (PyVal.voptNat self.ciphers)             -- binds to type
          (PyVal.vnat 0) PyVal.vnone               -- proto, fileno defaults
          true Option.none Option.none Option.none PyVal.vnone
          (ProbeResult.ok 0) with                  -- probe unread on this path
      | InitResult.endpoint new_ssl_sock =>
        (self, Except.ok (Option.some (new_ssl_sock, addr)))
      | _ =>
        -- dead branch: the initializer on a Sock.conn input always returns
        -- InitResult.endpoint
        (self, Except.ok Option.none)

/-- `_SSLSocket_real_connect` (patch.py:205-223).  `outcome` is the
environment oracle for `self._sslobj.connect(addr)`.  Returns the post-state
together with the returned errno (`0` on success) or the raised exception.
Note patch.py:216-221: in the `return_errno` branch the freshly created
session is left in `self._sslobj`; only the raising branch sets it to None. -/
def _SSLSocket_real_connect (self : Endpoint) (addr : Nat)
    (return_errno : Bool) (outcome : ConnectOutcome) :
    Endpoint × Except PyError Int :=
  if self._connected then
    (self, Except.error
      (PyError.valueError "attempt to connect already-connected SSLSocket!"))
  else
    let self := { self with _sslobj := Option.some (clientSession self) }
    match outcome with
    | ConnectOutcome.ok =>
      ({ self with _connected := true }, Except.ok 0)
    | ConnectOutcome.sockErr e =>
      if return_errno then
        (self, Except.ok e)
      else
        ({ self with _sslobj := Option.none },
         Except.error (PyError.socketError e))

/-- `_SSLSocket_get_timeout` (patch.py:229-230): `return
self._sslobj.get_timeout()`.  The session method itself is the oracle
`session_get_timeout`; on a `None` session the attribute access raises. -/
def _SSLSocket_get_timeout {α : Type} (self : Endpoint)
    (session_get_timeout : SSLConnection → α) :
    Endpoint × Except PyError α :=
  match self._sslobj with
  | Option.none =>
    (self, Except.error
      (PyError.attributeError "NoneType object has no attribute get_timeout"))
  | Option.some s => (self, Except.ok (session_get_timeout s))

/-- `_SSLSocket_handle_timeout` (patch.py:232-233): `return
self._sslobj.handle_timeout()`, same shape as `_SSLSocket_get_timeout`. -/
def _SSLSocket_handle_timeout {α : Type} (self : Endpoint)
    (session_handle_timeout : SSLConnection → α) :
    Endpoint × Except PyError α :=
  match self._sslobj with
  | Option.none =>
    (self, Except.error
      (PyError.attributeError "NoneType object has no attribute handle_timeout"))
  | Option.some s => (self, Except.ok (session_handle_timeout s))

/-- Role predicate: a Connected endpoint. -/
def Connected (ep : Endpoint) : Prop := ep._connected = true

/-- Role predicate: a Listening endpoint (not connected, session attached). -/
def Listening (ep : Endpoint) : Prop :=
  ep._connected = false ∧ ep._sslobj.isSome = true

/-- Role predicate: an Idle endpoint (not connected, no session). -/
def Idle (ep : Endpoint) : Prop :=
  ep._connected = false ∧ ep._sslobj = Option.none

/-- The implicit invariant of C9: whenever the connected flag is true, a
session is attached. -/
def SessionInv (ep : Endpoint) : Prop :=
  ep._connected = true → ep._sslobj ≠ Option.none

/-- Lift of `SessionInv` to an initializer result: trivially true for the
passthrough and fault outcomes, `SessionInv` for a constructed endpoint. -/
def initSessionInv : InitResult → Prop
  | InitResult.endpoint ep => SessionInv ep
  | InitResult.passthrough => True
  | InitResult.fault _ => True

/-- A concrete Idle endpoint used for concrete evaluations. -/
def idleEp : Endpoint :=
  { _connected := false, _sslobj := Option.none, keyfile := Option.none,
    certfile := Option.none, cert_reqs := 0, ssl_version := 258,
    ca_certs := Option.none, ciphers := Option.none,
    do_handshake_on_connect := true, suppress_ragged_eofs := true,
    handle := 3 }

/-- A concrete session used for concrete evaluations. -/
def demoSession : SSLConnection :=
  { handle := 3, keyfile := Option.none, certfile := Option.none,
    server_side := true, cert_reqs := 0, ssl_version := 258,
    ca_certs := Option.none, do_handshake_on_connect := true,
    suppress_ragged_eofs := true, ciphers := Option.none }

/-- A concrete Connected endpoint used for concrete evaluations. -/
def connEp : Endpoint :=
  { idleEp with _connected := true, _sslobj := Option.some demoSession }

/-- A concrete Listening endpoint used for concrete evaluations. -/
def listenEp : Endpoint :=
  { idleEp with _sslobj := Option.some demoSession }

/-- A concrete listening endpoint with non-default ragged-EOF tolerance and
cipher list, used to exhibit the accept configuration drop. -/
def c7Listener : Endpoint :=
  { _connected := false,
    _sslobj := Option.some
      { handle := 3, keyfile := Option.some 1, certfile := Option.some 2,
        server_side := true, cert_reqs := 2, ssl_version := 258,
        ca_certs := Option.some 4, do_handshake_on_connect := false,
        suppress_ragged_eofs := false, ciphers := Option.some 5 },
    keyfile := Option.some 1, certfile := Option.some 2, cert_reqs := 2,
    ssl_version := 258, ca_certs := Option.some 4, ciphers := Option.some 5,
    do_handshake_on_connect := false, suppress_ragged_eofs := false,
    handle := 3 }

/-- A concrete per-peer session as yielded by the listening session on
accept. -/
def c7NewConn : SSLConnection :=
  { handle := 9, keyfile := Option.some 1, certfile := Option.some 2,
    server_side := true, cert_reqs := 2, ssl_version := 258,
    ca_certs := Option.some 4, do_handshake_on_connect := false,
    suppress_ragged_eofs := false, ciphers := Option.some 5 }

/-- The endpoint the patched accept actually builds for `c7Listener` and
`c7NewConn`: the listener's key material, verification mode, protocol
version, trust anchors and handshake flag are propagated, but
`suppress_ragged_eofs` and `ciphers` end up as the initializer defaults
`true` / `None` because the call site binds them positionally to the unread
`family` and `type` parameters. -/
def c7NewEp : Endpoint :=
  { _connected := true, _sslobj := Option.some c7NewConn,
    keyfile := Option.some 1, certfile := Option.some 2, cert_reqs := 2,
    ssl_version := 258, ca_certs := Option.some 4, ciphers := Option.none,
    do_handshake_on_connect := false, suppress_ragged_eofs := true,
    handle := 9 }

/-- C1 counterexample: at the concrete Idle endpoint, a transport failure
during connect in error-code mode returns errno 111 as the error code, but
leaves the session reference non-None (the freshly created session stays
attached), contradicting the claim that the Endpoint then holds no session. -/
theorem C1_counterexample :
    (_SSLSocket_real_connect idleEp 7 true (ConnectOutcome.sockErr 111)).2 =
      Except.ok 111 ∧
    (_SSLSocket_real_connect idleEp 7 true
      (ConnectOutcome.sockErr 111)).1._sslobj ≠ Option.none := by
  constructor
  · rfl
  · simp [_SSLSocket_real_connect, idleEp]

/-- C1 (amended): for a not-Connected endpoint, a transport-level failure of
the session handshake initiation behaves as: with report_as_error_code = true
the errno is returned (not raised) and the freshly created client session is
left attached as the session reference; with report_as_error_code = false the
error is raised as a fault and the session reference is cleared to None.  In
both modes the endpoint remains not-Connected. -/
theorem C1_connect_transport_failure (ep : Endpoint) (addr : Nat) (e : Int)
    (h : ep._connected = false) :
    _SSLSocket_real_connect ep addr true (ConnectOutcome.sockErr e) =
      ({ ep with _sslobj := Option.some (clientSession ep) }, Except.ok e) ∧
    _SSLSocket_real_connect ep addr false (ConnectOutcome.sockErr e) =
      ({ ep with _sslobj := Option.none },
       Except.error (PyError.socketError e)) ∧
    ({ ep with _sslobj := Option.some (clientSession ep) })._connected = false ∧
    ({ ep with _sslobj := (Option.none : Option SSLConnection) })._connected
      = false := by
  refine ⟨?_, ?_, h, h⟩ <;> simp [_SSLSocket_real_connect, h]

/-- C1 witness: the amended statement evaluated at the concrete Idle endpoint
with errno 111. -/
theorem C1_connect_transport_failure_witness :
    idleEp._connected = false ∧
    (_SSLSocket_real_connect idleEp 7 true (ConnectOutcome.sockErr 111) =
      ({ idleEp with _sslobj := Option.some (clientSession idleEp) },
       Except.ok 111) ∧
     _SSLSocket_real_connect idleEp 7 false (ConnectOutcome.sockErr 111) =
      ({ idleEp with _sslobj := Option.none },
       Except.error (PyError.socketError 111)) ∧
     ({ idleEp with _sslobj := Option.some (clientSession idleEp) })._connected
       = false ∧
     ({ idleEp with _sslobj := (Option.none : Option SSLConnection) })._connected
       = false) :=
  ⟨rfl, C1_connect_transport_failure idleEp 7 111 rfl⟩

/-- C2: from a not-Connected endpoint a first successful connect returns 0 and
leaves the endpoint Connected, and a second connect on the resulting endpoint
always raises the precondition ValueError — never an error-code return —
regardless of the reporting mode and of the second outcome. -/
theorem C2_second_connect_raises (ep : Endpoint) (addr : Nat) (m : Bool)
    (addr2 : Nat) (m2 : Bool) (out2 : ConnectOutcome)
    (h : ep._connected = false) :
    (_SSLSocket_real_connect ep addr m ConnectOutcome.ok).2 = Except.ok 0 ∧
    Connected (_SSLSocket_real_connect ep addr m ConnectOutcome.ok).1 ∧
    _SSLSocket_real_connect
        (_SSLSocket_real_connect ep addr m ConnectOutcome.ok).1 addr2 m2 out2 =
      ((_SSLSocket_real_connect ep addr m ConnectOutcome.ok).1,
       Except.error (PyError.valueError
         "attempt to connect already-connected SSLSocket!")) := by
  refine ⟨?_, ?_, ?_⟩ <;> simp [_SSLSocket_real_connect, Connected, h]

/-- C2 witness: the double-connect fault at the concrete Idle endpoint. -/
theorem C2_second_connect_raises_witness :
    idleEp._connected = false ∧
    ((_SSLSocket_real_connect idleEp 7 true ConnectOutcome.ok).2 =
       Except.ok 0 ∧
     Connected (_SSLSocket_real_connect idleEp 7 true ConnectOutcome.ok).1 ∧
     _SSLSocket_real_connect
         (_SSLSocket_real_connect idleEp 7 true ConnectOutcome.ok).1 8 false
         ConnectOutcome.ok =
       ((_SSLSocket_real_connect idleEp 7 true ConnectOutcome.ok).1,
        Except.error (PyError.valueError
          "attempt to connect already-connected SSLSocket!"))) :=
  ⟨rfl, C2_second_connect_raises idleEp 7 true 8 false ConnectOutcome.ok rfl⟩

/-- C3: accept raises the connected-precondition ValueError on a Connected
endpoint and the no-session-precondition ValueError when no session exists,
and in both cases the endpoint state is unchanged by the failed call. -/
theorem C3_accept_precondition_faults (ep : Endpoint)
    (acc : Option (SSLConnection × Nat)) :
    (ep._connected = true →
      _SSLSocket_accept ep acc =
        (ep, Except.error (PyError.valueError
          "attempt to accept on connected SSLSocket!"))) ∧
    (ep._connected = false → ep._sslobj = Option.none →
      _SSLSocket_accept ep acc =
        (ep, Except.error (PyError.valueError
          "attempt to accept on SSLSocket prior to listen!"))) := by
  constructor
  · intro h
    simp [_SSLSocket_accept, h]
  · intro h h2
    simp [_SSLSocket_accept, h, h2]

/-- C3 witness: both accept precondition faults at concrete endpoints. -/
theorem C3_accept_precondition_faults_witness :
    _SSLSocket_accept connEp Option.none =
      (connEp, Except.error (PyError.valueError
        "attempt to accept on connected SSLSocket!")) ∧
    _SSLSocket_accept idleEp Option.none =
      (idleEp, Except.error (PyError.valueError
        "attempt to accept on SSLSocket prior to listen!")) :=
  ⟨(C3_accept_precondition_faults connEp Option.none).1 rfl,
   (C3_accept_precondition_faults idleEp Option.none).2 rfl rfl⟩

/-- C4: listen raises a ValueError on a Connected endpoint; with a session
already attached it returns with no observable state change; from an Idle
endpoint it attaches the server-role session and the endpoint is Listening
afterwards; and for any not-Connected endpoint a second listen right after a
first one changes nothing (listen;listen is observably listen). -/
theorem C4_listen_behaviour (ep : Endpoint) (n n2 : Nat) :
    (ep._connected = true →
      _SSLSocket_listen ep n =
        (ep, Except.error (PyError.valueError
          "attempt to listen on connected SSLSocket!"))) ∧
    (ep._connected = false → ep._sslobj.isSome = true →
      _SSLSocket_listen ep n = (ep, Except.ok ())) ∧
    (ep._connected = false → ep._sslobj = Option.none →
      _SSLSocket_listen ep n =
        ({ ep with _sslobj := Option.some (serverSession ep) },
         Except.ok ()) ∧
      (serverSession ep).server_side = true ∧
      Listening { ep with _sslobj := Option.some (serverSession ep) }) ∧
    (ep._connected = false →
      _SSLSocket_listen (_SSLSocket_listen ep n).1 n2 =
        ((_SSLSocket_listen ep n).1, Except.ok ())) := by
  refine ⟨?_, ?_, ?_, ?_⟩
  · intro h
    simp [_SSLSocket_listen, h]
  · intro h h2
    simp [_SSLSocket_listen, h, h2]
  · intro h h2
    refine ⟨?_, rfl, ?_⟩
    · simp [_SSLSocket_listen, h, h2]
    · exact ⟨h, rfl⟩
  · intro h
    cases hs : ep._sslobj with
    | none => simp [_SSLSocket_listen, h, hs]
    | some s => simp [_SSLSocket_listen, h, hs]

/-- C4 witness: listen at the concrete Idle and Connected endpoints, and the
idempotence of the second listen. -/
theorem C4_listen_behaviour_witness :
    _SSLSocket_listen connEp 5 =
      (connEp, Except.error (PyError.valueError
        "attempt to listen on connected SSLSocket!")) ∧
    _SSLSocket_listen idleEp 5 =
      ({ idleEp with _sslobj := Option.some (serverSession idleEp) },
       Except.ok ()) ∧
    _SSLSocket_listen (_SSLSocket_listen idleEp 5).1 6 =
      ((_SSLSocket_listen idleEp 5).1, Except.ok ()) :=
  ⟨(C4_listen_behaviour connEp 5 6).1 rfl,
   ((C4_listen_behaviour idleEp 5 6).2.2.1 rfl rfl).1,
   (C4_listen_behaviour idleEp 5 6).2.2.2 rfl⟩

/-- C5: the connectedness probe of datagram-handle construction: an ENOTCONN
probe error yields an unbound Idle endpoint (not Connected, no session); a
successful probe yields a Connected endpoint with a session attached; any
other probe errno is propagated as a fault out of construction. -/
theorem C5_probe_classification (h : Nat) (keyfile certfile : Option Nat)
    (server_side : Bool) (cert_reqs ssl_version : Nat) (ca_certs : Option Nat)
    (do_handshake_on_connect suppress_ragged_eofs : Bool)
    (ciphers : Option Nat) (peer : Nat) (e : Int) :
    (∃ ep, initDatagram h keyfile certfile server_side cert_reqs ssl_version
        ca_certs do_handshake_on_connect suppress_ragged_eofs ciphers
        (ProbeResult.err ENOTCONN) = InitResult.endpoint ep ∧ Idle ep) ∧
    (∃ ep, initDatagram h keyfile certfile server_side cert_reqs ssl_version
        ca_certs do_handshake_on_connect suppress_ragged_eofs ciphers
        (ProbeResult.ok peer) = InitResult.endpoint ep ∧ Connected ep ∧
        ep._sslobj ≠ Option.none) ∧
    (e ≠ ENOTCONN →
      initDatagram h keyfile certfile server_side cert_reqs ssl_version
        ca_certs do_handshake_on_connect suppress_ragged_eofs ciphers
        (ProbeResult.err e) = InitResult.fault (PyError.socketError e)) := by
  refine ⟨⟨_, rfl, rfl, rfl⟩, ⟨_, rfl, rfl, by simp⟩, fun he => ?_⟩
  simp [initDatagram, _SSLSocket_init, he]

/-- C5 witness: the three probe outcomes at a concrete datagram handle. -/
theorem C5_probe_classification_witness :
    (∃ ep, initDatagram 3 Option.none Option.none false 0 258 Option.none
        true true Option.none (ProbeResult.err ENOTCONN) =
        InitResult.endpoint ep ∧ Idle ep) ∧
    (∃ ep, initDatagram 3 Option.none Option.none false 0 258 Option.none
        true true Option.none (ProbeResult.ok 9) =
        InitResult.endpoint ep ∧ Connected ep ∧ ep._sslobj ≠ Option.none) ∧
    initDatagram 3 Option.none Option.none false 0 258 Option.none
        true true Option.none (ProbeResult.err 111) =
      InitResult.fault (PyError.socketError 111) :=
  ⟨(C5_probe_classification 3 Option.none Option.none false 0 258 Option.none
      true true Option.none 9 111).1,
   (C5_probe_classification 3 Option.none Option.none false 0 258 Option.none
      true true Option.none 9 111).2.1,
   (C5_probe_classification 3 Option.none Option.none false 0 258 Option.none
      true true Option.none 9 111).2.2 (by decide)⟩

/-- C6: the construction-time role trichotomy: a Secure Session input is
classified DemultiplexedDatagram and construction takes that session with the
endpoint Connected; a datagram-kind input takes the probing path (never the
passthrough); any other input fully delegates to the unmodified stream-socket
initializer. -/
theorem C6_role_trichotomy (c : SSLConnection) (h ty : Nat)
    (keyfile certfile : Option Nat) (server_side : Bool)
    (cert_reqs ssl_version : Nat) (ca_certs : Option Nat)
    (do_handshake_on_connect : Bool) (family type proto fileno : PyVal)
    (suppress_ragged_eofs : Bool)
    (npn_protocols ciphers server_hostname : Option Nat)
    (_context : PyVal) (probe : ProbeResult) :
    (classify (Sock.conn c) = Role.DemultiplexedDatagram ∧
     ∃ ep, _SSLSocket_init (Sock.conn c) keyfile certfile server_side
        cert_reqs ssl_version ca_certs do_handshake_on_connect family type
        proto fileno suppress_ragged_eofs npn_protocols ciphers
        server_hostname _context probe = InitResult.endpoint ep ∧
        ep._sslobj = Option.some c ∧ Connected ep) ∧
    (classify (Sock.raw h SOCK_DGRAM) = Role.DatagramProbing ∧
     _SSLSocket_init (Sock.raw h SOCK_DGRAM) keyfile certfile server_side
        cert_reqs ssl_version ca_certs do_handshake_on_connect family type
        proto fileno suppress_ragged_eofs npn_protocols ciphers
        server_hostname _context probe ≠ InitResult.passthrough) ∧
    (ty ≠ SOCK_DGRAM →
      classify (Sock.raw h ty) = Role.Passthrough ∧
      _SSLSocket_init (Sock.raw h ty) keyfile certfile server_side cert_reqs
        ssl_version ca_certs do_handshake_on_connect family type proto fileno
        suppress_ragged_eofs npn_protocols ciphers server_hostname _context
        probe = InitResult.passthrough) := by
  refine ⟨⟨rfl, _, rfl, rfl, rfl⟩, ⟨rfl, ?_⟩, fun hty => ⟨?_, ?_⟩⟩
  · cases probe with
    | ok p => simp [_SSLSocket_init]
    | err e =>
      by_cases he : e = ENOTCONN <;> simp [_SSLSocket_init, he]
  · simp [classify, hty]
  · simp [_SSLSocket_init, hty]

/-- C6 witness: the trichotomy at a concrete session, a concrete datagram
handle and a concrete stream handle. -/
theorem C6_role_trichotomy_witness :
    (classify (Sock.conn demoSession) = Role.DemultiplexedDatagram ∧
     ∃ ep, _SSLSocket_init (Sock.conn demoSession) Option.none Option.none
        false 0 258 Option.none true (PyVal.vnat 2) (PyVal.vnat 1)
        (PyVal.vnat 0) PyVal.vnone true Option.none Option.none Option.none
        PyVal.vnone (ProbeResult.err ENOTCONN) = InitResult.endpoint ep ∧
        ep._sslobj = Option.some demoSession ∧ Connected ep) ∧
    (classify (Sock.raw 3 SOCK_DGRAM) = Role.DatagramProbing ∧
     _SSLSocket_init (Sock.raw 3 SOCK_DGRAM) Option.none Option.none
        false 0 258 Option.none true (PyVal.vnat 2) (PyVal.vnat 1)
        (PyVal.vnat 0) PyVal.vnone true Option.none Option.none Option.none
        PyVal.vnone (ProbeResult.err ENOTCONN) ≠ InitResult.passthrough) ∧
    (classify (Sock.raw 3 SOCK_STREAM) = Role.Passthrough ∧
     _SSLSocket_init (Sock.raw 3 SOCK_STREAM) Option.none Option.none
        false 0 258 Option.none true (PyVal.vnat 2) (PyVal.vnat 1)
        (PyVal.vnat 0) PyVal.vnone true Option.none Option.none Option.none
        PyVal.vnone (ProbeResult.err ENOTCONN) = InitResult.passthrough) :=
  ⟨(C6_role_trichotomy demoSession 3 SOCK_STREAM Option.none Option.none
      false 0 258 Option.none true (PyVal.vnat 2) (PyVal.vnat 1)
      (PyVal.vnat 0) PyVal.vnone true Option.none Option.none Option.none
      PyVal.vnone (ProbeResult.err ENOTCONN)).1,
   (C6_role_trichotomy demoSession 3 SOCK_STREAM Option.none Option.none
      false 0 258 Option.none true (PyVal.vnat 2) (PyVal.vnat 1)
      (PyVal.vnat 0) PyVal.vnone true Option.none Option.none Option.none
      PyVal.vnone (ProbeResult.err ENOTCONN)).2.1,
   (C6_role_trichotomy demoSession 3 SOCK_STREAM Option.none Option.none
      false 0 258 Option.none true (PyVal.vnat 2) (PyVal.vnat 1)
      (PyVal.vnat 0) PyVal.vnone true Option.none Option.none Option.none
      PyVal.vnone (ProbeResult.err ENOTCONN)).2.2 (by decide)⟩

/-- C7: at a listening endpoint whose configuration has non-default
ragged-EOF tolerance (false) and cipher list (5), a ready peer association is
wrapped in a new Connected endpoint that carries the listener's key material,
verification mode, protocol version, trust anchors and handshake flag, and
the listener itself is unchanged — but the new endpoint's ragged-EOF
tolerance and cipher list are the defaults true / None, not the listener's,
because the accept call site binds `self.suppress_ragged_eofs` and
`self.ciphers` positionally to the initializer parameters `family` and
`type`.  This evaluates the code at the failing input of the C7 code bug. -/
theorem C7_accept_drops_ragged_eof_and_ciphers :
    _SSLSocket_accept c7Listener (Option.some (c7NewConn, 42)) =
      (c7Listener, Except.ok (Option.some (c7NewEp, 42))) ∧
    Connected c7NewEp ∧ c7NewEp._sslobj = Option.some c7NewConn ∧
    c7NewEp.keyfile = c7Listener.keyfile ∧
    c7NewEp.certfile = c7Listener.certfile ∧
    c7NewEp.cert_reqs = c7Listener.cert_reqs ∧
    c7NewEp.ssl_version = c7Listener.ssl_version ∧
    c7NewEp.ca_certs = c7Listener.ca_certs ∧
    c7NewEp.do_handshake_on_connect = c7Listener.do_handshake_on_connect ∧
    c7Listener.suppress_ragged_eofs = false ∧
    c7NewEp.suppress_ragged_eofs = true ∧
    c7Listener.ciphers = Option.some 5 ∧
    c7NewEp.ciphers = Option.none ∧
    _SSLSocket_accept c7Listener Option.none =
      (c7Listener, Except.ok Option.none) := by
  refine ⟨rfl, rfl, rfl, rfl, rfl, rfl, rfl, rfl, rfl, rfl, rfl, rfl, rfl,
    rfl⟩

/-- C8: for an endpoint holding a session, get_timeout and handle_timeout
return exactly what the session operations return, with the endpoint state
unchanged (pure delegation). -/
theorem C8_timeout_delegation {α β : Type} (ep : Endpoint) (s : SSLConnection)
    (f : SSLConnection → α) (g : SSLConnection → β)
    (h : ep._sslobj = Option.some s) :
    _SSLSocket_get_timeout ep f = (ep, Except.ok (f s)) ∧
    _SSLSocket_handle_timeout ep g = (ep, Except.ok (g s)) := by
  constructor <;> simp [_SSLSocket_get_timeout, _SSLSocket_handle_timeout, h]

/-- C8 witness: delegation at the concrete Listening endpoint with concrete
session operations. -/
theorem C8_timeout_delegation_witness :
    listenEp._sslobj = Option.some demoSession ∧
    (_SSLSocket_get_timeout listenEp (fun s => s.cert_reqs) =
      (listenEp, Except.ok demoSession.cert_reqs) ∧
     _SSLSocket_handle_timeout listenEp (fun s => s.ssl_version) =
      (listenEp, Except.ok demoSession.ssl_version)) :=
  ⟨rfl, C8_timeout_delegation listenEp demoSession
    (fun s => s.cert_reqs) (fun s => s.ssl_version) rfl⟩

/-- C9: the connected-implies-session invariant: every endpoint produced by
the patched initializer satisfies it (the connected flag is set only together
with a session), listen and accept preserve it on the receiver, every
endpoint produced by accept satisfies it, and connect preserves it (the flag
becomes true only after the session was created and its handshake initiation
succeeded). -/
theorem C9_session_invariant :
    (∀ sock keyfile certfile server_side cert_reqs ssl_version ca_certs
        do_handshake_on_connect family type proto fileno suppress_ragged_eofs
        npn_protocols ciphers server_hostname _context probe,
      initSessionInv (_SSLSocket_init sock keyfile certfile server_side
        cert_reqs ssl_version ca_certs do_handshake_on_connect family type
        proto fileno suppress_ragged_eofs npn_protocols ciphers
        server_hostname _context probe)) ∧
    (∀ ep n, SessionInv ep → SessionInv (_SSLSocket_listen ep n).1) ∧
    (∀ ep acc, SessionInv ep → SessionInv (_SSLSocket_accept ep acc).1) ∧
    (∀ ep acc newEp a,
      (_SSLSocket_accept ep acc).2 = Except.ok (Option.some (newEp, a)) →
      SessionInv newEp) ∧
    (∀ ep addr m out, SessionInv ep →
      SessionInv (_SSLSocket_real_connect ep addr m out).1) := by
  refine ⟨?_, ?_, ?_, ?_, ?_⟩
  · intro sock kf cf ss cr sv ca dh fam ty pr fn sre np ci sh ctx probe
    cases sock with
    | conn c =>
      intro _
      simp [_SSLSocket_init]
    | raw hdl t =>
      by_cases hty : t = SOCK_DGRAM
      · cases probe with
        | ok p =>
          simp [_SSLSocket_init, hty, initSessionInv, SessionInv]
        | err e =>
          by_cases he : e = ENOTCONN
          · simp [_SSLSocket_init, hty, he, initSessionInv, SessionInv]
          · simp [_SSLSocket_init, hty, he, initSessionInv]
      · simp [_SSLSocket_init, hty, initSessionInv]
  · intro ep n hinv
    unfold _SSLSocket_listen
    split
    · exact hinv
    · split
      · exact hinv
      · intro _
        simp
  · intro ep acc hinv
    unfold _SSLSocket_accept
    split
    · exact hinv
    · split
      · exact hinv
      · cases acc with
        | none => exact hinv
        | some p =>
          obtain ⟨nc, addr⟩ := p
          exact hinv
  · intro ep acc newEp a hh
    unfold _SSLSocket_accept at hh
    split at hh
    · simp at hh
    · split at hh
      · simp at hh
      · cases acc with
        | none => simp at hh
        | some p =>
          obtain ⟨nc, addr⟩ := p
          simp only [_SSLSocket_init] at hh
          simp at hh
          obtain ⟨h1, h2⟩ := hh
          intro _
          simp [← h1]
  · intro ep addr m out hinv
    unfold _SSLSocket_real_connect
    split
    · exact hinv
    · next hcon =>
      cases out with
      | ok =>
        intro _
        simp
      | sockErr e =>
        cases m with
        | true =>
          intro _
          simp
        | false =>
          intro hc
          simp at hc
          exact absurd hc hcon

/-- C9 witness: the invariant after concrete listen, accept and connect
calls. -/
theorem C9_session_invariant_witness :
    SessionInv (_SSLSocket_listen idleEp 5).1 ∧
    SessionInv (_SSLSocket_accept listenEp Option.none).1 ∧
    SessionInv (_SSLSocket_real_connect idleEp 7 true ConnectOutcome.ok).1 :=
  ⟨C9_session_invariant.2.1 idleEp 5 (fun hc => by simp [idleEp] at hc),
   C9_session_invariant.2.2.1 listenEp Option.none
     (fun hc => by simp [listenEp, idleEp] at hc),
   C9_session_invariant.2.2.2.2 idleEp 7 true ConnectOutcome.ok
     (fun hc => by simp [idleEp] at hc)⟩

/-- C10: calling get_timeout or handle_timeout on an endpoint whose session
reference is None raises the attribute-access fault on the None session
rather than returning an empty timeout result: these operations have the
unstated precondition that a session exists. -/
theorem C10_timeout_without_session {α β : Type} (ep : Endpoint)
    (f : SSLConnection → α) (g : SSLConnection → β)
    (h : ep._sslobj = Option.none) :
    _SSLSocket_get_timeout ep f =
      (ep, Except.error (PyError.attributeError
        "NoneType object has no attribute get_timeout")) ∧
    _SSLSocket_handle_timeout ep g =
      (ep, Except.error (PyError.attributeError
        "NoneType object has no attribute handle_timeout")) := by
  constructor <;>
    simp [_SSLSocket_get_timeout, _SSLSocket_handle_timeout, h]

/-- C10 witness: the faults at the concrete Idle endpoint, which has never
had a session attached. -/
theorem C10_timeout_without_session_witness :
    idleEp._sslobj = Option.none ∧
    (_SSLSocket_get_timeout idleEp (fun s => s.cert_reqs) =
      (idleEp, Except.error (PyError.attributeError
        "NoneType object has no attribute get_timeout")) ∧
     _SSLSocket_handle_timeout idleEp (fun s => s.ssl_version) =
      (idleEp, Except.error (PyError.attributeError
        "NoneType object has no attribute handle_timeout"))) :=
  ⟨rfl, C10_timeout_without_session idleEp
    (fun s => s.cert_reqs) (fun s => s.ssl_version) rfl⟩

end DtlsPatch
